import Mathlib

/-
Shallow embedding of the fluid-simulation bake orchestrator in
source/blender/editors/physics/physics_fluid.c (BlenderMantaflow).

Machine floats and doubles are modelled as exact rationals (ℚ); C arrays of
floats are modelled as List ℚ, with out-of-range reads returning 0 (List.getD)
and out-of-range writes being dropped (List.set), which matches the in-range
behaviour of the verified code exactly.  External collaborators (scene graph,
animation evaluation, BLI filesystem utilities, the solvers) are modelled as
explicit parameters, mirroring the narrow interface the file consumes.
-/

/-- Components of a 3-float vector (copy_v3_v3 targets). -/
abbrev Vec3 := ℚ × ℚ × ℚ

/-- The OB_FLUIDSIM_* type tag of a fluid-sim participating object. -/
inductive FsType
  | domain
  | fluid
  | obstacle
  | inflow
  | outflow
  | particle
  | control
deriving DecidableEq

/-- Rational stand-in for the C float constant M_PI (written as an explicit
fraction; the claims never depend on its value). -/
def M_PI_Q : ℚ := 314159265358979323846 / 100000000000000000000

/-- CHANNEL_FLOAT: entries of a scalar channel sample (plus one time slot). -/
def CHANNEL_FLOAT : ℕ := 1

/-- CHANNEL_VEC: entries of a vector channel sample (plus one time slot). -/
def CHANNEL_VEC : ℕ := 3

/-- get_fluid_viscosity: (1/powf(10, viscosityExponent)) * viscosityValue. -/
def get_fluid_viscosity (viscosityExponent : ℤ) (viscosityValue : ℚ) : ℚ :=
  (1 / (10 : ℚ) ^ viscosityExponent) * viscosityValue

/-- get_fluid_rate: the domain animRate, clamped below at 0. -/
def get_fluid_rate (animRate : ℚ) : ℚ :=
  if animRate < 0 then 0 else animRate

/-- Per-frame scene evaluation results read by the channel sampler for the
domain.  The host animation system (ED_update_for_newframe) is external, so
the value each domain setting has after evaluating frame `bakeStart + i` is a
parameter function of the loop index `i`. -/
structure DomainEval where
  useGlobalGravity : Bool
  sceneGravityAt : ℕ → Vec3
  gravAt : ℕ → Vec3
  animRateAt : ℕ → ℚ
  viscosityExponentAt : ℕ → ℤ
  viscosityValueAt : ℕ → ℚ
  animStart : ℚ

/-- get_fluid_gravity: scene gravity when PHYS_GLOBAL_GRAVITY is set, else the
domain settings gravity. -/
def get_fluid_gravity (dev : DomainEval) (i : ℕ) : Vec3 :=
  if dev.useGlobalGravity then dev.sceneGravityAt i else dev.gravAt i

/-- The `value` argument of set_channel together with its `size` selector
(CHANNEL_FLOAT reads one float, CHANNEL_VEC reads three). -/
inductive ChannelValue
  | float (v : ℚ)
  | vec (v : Vec3)

/-- set_channel: write one frame sample (value entries then the time slot)
into a fixed-stride channel buffer. -/
def set_channel (channel : List ℚ) (time : ℚ) (value : ChannelValue) (i : ℕ) : List ℚ :=
  match value with
  | ChannelValue.float v =>
      (channel.set (i * 2 + 0) v).set (i * 2 + 1) time
  | ChannelValue.vec v =>
      ((((channel.set (i * 4 + 0) v.1).set (i * 4 + 1) v.2.1).set
          (i * 4 + 2) v.2.2).set (i * 4 + 3) time)

/-- Loop of init_time filling timeAtFrame[i] for i = 2 .. length.  The C
counts frames with `for (i=2; i <= length; i++)`; the first argument is the
number of remaining iterations, `length + 1 - i`, so that the recursion is
structural. -/
def init_time_loop (aniFrameTime : ℚ) : ℕ → ℕ → List ℚ → List ℚ
  | 0, _, taf => taf
  | fuel + 1, i, taf =>
      init_time_loop aniFrameTime fuel (i + 1) (taf.set i (taf.getD (i - 1) 0 + aniFrameTime))

/-- init_time: allocate timeAtFrame (length+1 zero floats), set slots 0 and 1
to animStart, then accumulate aniFrameTime from slot 2 on. -/
def init_time (animStart aniFrameTime : ℚ) (length : ℕ) : List ℚ :=
  let taf := List.replicate (length + 1) (0 : ℚ)
  let taf := (taf.set 0 animStart).set 1 animStart
  init_time_loop aniFrameTime (length + 1 - 2) 2 taf

/-- The vertex-cache buffer of one FluidObject, with explicit allocation
state: `ptr` models whether fobj->VertexCache is non-NULL, `alive` whether
the buffer it points to is still allocated (MEM_freeN drops it), and `buf`
the pointed-to float array. -/
structure VertexChan where
  ptr : Bool
  alive : Bool
  buf : List ℚ
deriving DecidableEq

/-- Write a run of consecutive floats starting at index `start`. -/
def writeSeq (buf : List ℚ) (start : ℕ) (vals : List ℚ) : List ℚ :=
  match vals with
  | [] => buf
  | v :: rest => writeSeq (buf.set start v) (start + 1) rest

/-- set_vertex_channel: the C function receives the channel pointer by value.
On NULL it returns; on a vertex-count mismatch it frees the buffer and nulls
only its local copy of the pointer (the caller field keeps its value, which is
why `ptr` is unchanged while `alive` becomes false); otherwise it writes the
frame's vertex positions followed by the time slot. -/
def set_vertex_channel (vc : VertexChan) (time : ℚ) (fobjNumVerts : ℕ)
    (meshNumVerts : ℕ) (meshVerts : List ℚ) (i : ℕ) : VertexChan :=
  let framesize := 3 * fobjNumVerts + 1
  if vc.ptr = false then vc
  else if meshNumVerts ≠ fobjNumVerts then { vc with alive := false }
  else
    let buf := writeSeq vc.buf (i * framesize) (meshVerts.take (3 * meshNumVerts))
    { vc with buf := buf.set (i * framesize + framesize - 1) time }

/-- One scene object participating in a legacy bake, together with the
per-evaluation-frame values the sampler reads from it after the external
animation system re-evaluates frame `bakeStart + i`.  `compatEulAt i ref`
stands for the external BLI_math call mat4_to_compatible_eulO on the object
world matrix at frame i with reference Euler `ref` (result in radians). -/
structure FluidObjIn where
  oid : ℕ
  hasMod : Bool
  isMesh : Bool
  kind : FsType
  novecgen : Bool
  flagActiveAt : ℕ → Bool
  locAt : ℕ → Vec3
  sizeAt : ℕ → Vec3
  iniVelAt : ℕ → Vec3
  attractforceStrengthAt : ℕ → ℚ
  attractforceRadiusAt : ℕ → ℚ
  velocityforceStrengthAt : ℕ → ℚ
  velocityforceRadiusAt : ℕ → ℚ
  compatEulAt : ℕ → Vec3 → Vec3
  numVerts0 : ℕ
  numTris0 : ℕ
  numVertsAt : ℕ → ℕ
  vertsAt : ℕ → List ℚ

/-- fluid_is_animated_mesh: control objects and non-vector-gen meshes. -/
def fluid_is_animated_mesh (o : FluidObjIn) : Bool :=
  decide (o.kind = FsType.control) || o.novecgen

/-- The allocated channel buffers of one FluidObject (NULL pointers are
`none`). -/
structure FObjState where
  obj : FluidObjIn
  Translation : Option (List ℚ)
  Rotation : Option (List ℚ)
  Scale : Option (List ℚ)
  Active : Option (List ℚ)
  InitialVelocity : Option (List ℚ)
  AttractforceStrength : Option (List ℚ)
  AttractforceRadius : Option (List ℚ)
  VelocityforceStrength : Option (List ℚ)
  VelocityforceRadius : Option (List ℚ)
  VertexCache : VertexChan
  numVerts : ℕ
  numTris : ℕ

/-- Allocation part of fluid_init_all_channels for one object with a fluid
modifier: DOMAIN/PARTICLE objects get a bare zeroed FluidObject; others get
calloc-ed channels, control objects additionally the four force channels, and
animated meshes a vertex cache sized from the allocation-time vertex count. -/
def allocFluidObject (length : ℕ) (o : FluidObjIn) : FObjState :=
  if o.kind = FsType.domain ∨ o.kind = FsType.particle then
    { obj := o, Translation := none, Rotation := none, Scale := none, Active := none,
      InitialVelocity := none, AttractforceStrength := none, AttractforceRadius := none,
      VelocityforceStrength := none, VelocityforceRadius := none,
      VertexCache := { ptr := false, alive := false, buf := [] },
      numVerts := 0, numTris := 0 }
  else
    { obj := o,
      Translation := some (List.replicate (length * (CHANNEL_VEC + 1)) 0),
      Rotation := some (List.replicate (length * (CHANNEL_VEC + 1)) 0),
      Scale := some (List.replicate (length * (CHANNEL_VEC + 1)) 0),
      Active := some (List.replicate (length * (CHANNEL_FLOAT + 1)) 0),
      InitialVelocity := some (List.replicate (length * (CHANNEL_VEC + 1)) 0),
      AttractforceStrength :=
        if o.kind = FsType.control then some (List.replicate (length * (CHANNEL_FLOAT + 1)) 0) else none,
      AttractforceRadius :=
        if o.kind = FsType.control then some (List.replicate (length * (CHANNEL_FLOAT + 1)) 0) else none,
      VelocityforceStrength :=
        if o.kind = FsType.control then some (List.replicate (length * (CHANNEL_FLOAT + 1)) 0) else none,
      VelocityforceRadius :=
        if o.kind = FsType.control then some (List.replicate (length * (CHANNEL_FLOAT + 1)) 0) else none,
      VertexCache :=
        if fluid_is_animated_mesh o then
          { ptr := true, alive := true,
            buf := List.replicate (length * (o.numVerts0 * CHANNEL_VEC + 1)) 0 }
        else { ptr := false, alive := false, buf := [] },
      numVerts := if fluid_is_animated_mesh o then o.numVerts0 else 0,
      numTris := if fluid_is_animated_mesh o then o.numTris0 else 0 }

/-- The FluidAnimChannels struct (domain channels plus the shared time axis). -/
structure FluidAnimChannels where
  length : ℕ
  aniFrameTime : ℚ
  timeAtFrame : List ℚ
  DomainTime : List ℚ
  DomainGravity : List ℚ
  DomainViscosity : List ℚ

/-- Scale a 3-vector by a scalar (mul_v3_fl). -/
def scaleV (c : ℚ) (v : Vec3) : Vec3 := (c * v.1, c * v.2.1, c * v.2.2)

/-- Read three consecutive floats of a channel (copy_v3_v3 from
fobj->Rotation + idx); reading through a NULL channel is modelled as zeros. -/
def readRotSlot (rc : Option (List ℚ)) (idx : ℕ) : Vec3 :=
  match rc with
  | some l => (l.getD idx 0, l.getD (idx + 1) 0, l.getD (idx + 2) 0)
  | none => (0, 0, 0)

/-- Per-object body of the channel-filling loop of fluid_init_all_channels at
frame index `i` with the current timeAtFrame value. -/
def fillObjFrame (i : ℕ) (timeAtFrame : ℚ) (fs : FObjState) : FObjState :=
  let o := fs.obj
  if o.kind = FsType.domain ∨ o.kind = FsType.particle then fs
  else
    let old_rot : Vec3 :=
      if i = 0 then (0, 0, 0)
      else scaleV (-M_PI_Q / 180) (readRotSlot fs.Rotation (4 * (i - 1)))
    let rot_d := scaleV (-(180 : ℚ) / M_PI_Q) (o.compatEulAt i old_rot)
    let active : ℚ := if o.flagActiveAt i then 1 else 0
    let fs1 := { fs with
      Translation := fs.Translation.map
        (fun c => set_channel c timeAtFrame (ChannelValue.vec (o.locAt i)) i),
      Rotation := fs.Rotation.map
        (fun c => set_channel c timeAtFrame (ChannelValue.vec rot_d) i),
      Scale := fs.Scale.map
        (fun c => set_channel c timeAtFrame (ChannelValue.vec (o.sizeAt i)) i),
      Active := fs.Active.map
        (fun c => set_channel c timeAtFrame (ChannelValue.float active) i),
      InitialVelocity := fs.InitialVelocity.map
        (fun c => set_channel c timeAtFrame (ChannelValue.vec (o.iniVelAt i)) i) }
    let fs2 :=
      if o.kind = FsType.control then
        { fs1 with
          AttractforceStrength := fs1.AttractforceStrength.map
            (fun c => set_channel c timeAtFrame (ChannelValue.float (o.attractforceStrengthAt i)) i),
          AttractforceRadius := fs1.AttractforceRadius.map
            (fun c => set_channel c timeAtFrame (ChannelValue.float (o.attractforceRadiusAt i)) i),
          VelocityforceStrength := fs1.VelocityforceStrength.map
            (fun c => set_channel c timeAtFrame (ChannelValue.float (o.velocityforceStrengthAt i)) i),
          VelocityforceRadius := fs1.VelocityforceRadius.map
            (fun c => set_channel c timeAtFrame (ChannelValue.float (o.velocityforceRadiusAt i)) i) }
      else fs1
    if fluid_is_animated_mesh o then
      let vc := set_vertex_channel fs2.VertexCache timeAtFrame fs2.numVerts (o.numVertsAt i) (o.vertsAt i) i
      { fs2 with VertexCache := vc }
    else fs2

/-- One iteration of the frame loop of fluid_init_all_channels: compute the
domain time step (note set_channel is handed the loop index `i` as its time
argument for DomainTime), push timeAtFrame[i+1], write the gravity and
viscosity samples at the new timeAtFrame, then sample every object. -/
def fillFrame (dev : DomainEval) (i : ℕ) (ch : FluidAnimChannels)
    (objs : List FObjState) : FluidAnimChannels × List FObjState :=
  let time := get_fluid_rate (dev.animRateAt i) * ch.aniFrameTime
  let timeAtFrame := ch.timeAtFrame.getD i 0 + time
  let taf := ch.timeAtFrame.set (i + 1) timeAtFrame
  let dt := set_channel ch.DomainTime (i : ℚ) (ChannelValue.float time) i
  let dg := set_channel ch.DomainGravity timeAtFrame
      (ChannelValue.vec (get_fluid_gravity dev i)) i
  let dv := set_channel ch.DomainViscosity timeAtFrame
      (ChannelValue.float (get_fluid_viscosity (dev.viscosityExponentAt i) (dev.viscosityValueAt i))) i
  ({ ch with timeAtFrame := taf, DomainTime := dt, DomainGravity := dg, DomainViscosity := dv },
   objs.map (fillObjFrame i timeAtFrame))

/-- The frame loop `for i = 0 .. length-1` of fluid_init_all_channels,
written with an explicit count of remaining iterations (`length - i`, so the
loop exits exactly when `i` reaches `length`) to keep the recursion
structural. -/
def fillFramesAux (dev : DomainEval) : ℕ → ℕ → FluidAnimChannels → List FObjState →
    FluidAnimChannels × List FObjState
  | 0, _, ch, objs => (ch, objs)
  | fuel + 1, i, ch, objs =>
      let r := fillFrame dev i ch objs
      fillFramesAux dev fuel (i + 1) r.1 r.2

/-- The frame loop of fluid_init_all_channels starting at frame index `i`. -/
def fillFrames (dev : DomainEval) (length : ℕ) (i : ℕ) (ch : FluidAnimChannels)
    (objs : List FObjState) : FluidAnimChannels × List FObjState :=
  fillFramesAux dev (length - i) i ch objs

/-- Allocation part of fluid_init_all_channels for the domain: init_time and
the three calloc-ed domain channels. -/
def initialChannels (dev : DomainEval) (length : ℕ) (aniFrameTime : ℚ) : FluidAnimChannels :=
  { length := length, aniFrameTime := aniFrameTime,
    timeAtFrame := init_time dev.animStart aniFrameTime length,
    DomainTime := List.replicate (length * (CHANNEL_FLOAT + 1)) 0,
    DomainGravity := List.replicate (length * (CHANNEL_VEC + 1)) 0,
    DomainViscosity := List.replicate (length * (CHANNEL_FLOAT + 1)) 0 }

/-- Allocation part of fluid_init_all_channels for the objects: every scene
object carrying a fluid modifier receives a FluidObject. -/
def initialFluidObjects (length : ℕ) (scene : List FluidObjIn) : List FObjState :=
  (scene.filter (fun o => o.hasMod)).map (allocFluidObject length)

/-- fluid_init_all_channels: init_time, calloc the three domain channels,
allocate a FluidObject for every scene object carrying a fluid modifier, then
run the frame loop. -/
def fluid_init_all_channels (dev : DomainEval) (length : ℕ) (aniFrameTime : ℚ)
    (scene : List FluidObjIn) : FluidAnimChannels × List FObjState :=
  fillFrames dev length 0 (initialChannels dev length aniFrameTime)
    (initialFluidObjects length scene)

/-- Validation errors reported by fluid_validate_scene (each corresponds to
one BKE_report message; multipleDomains is the message "There should be only
one domain object"). -/
inductive ValErr
  | multipleDomains
  | noDomain
  | tooManyObjects
  | noFluidInput
deriving DecidableEq

/-- Result of fluid_validate_scene (1 = ok, 0 plus a report = err). -/
inductive ValResult
  | ok
  | err (e : ValErr)
deriving DecidableEq

/-- A scene object as seen by the legacy validator: identity, whether it has a
fluid modifier, whether it is a mesh object, and its fluid-sim type. -/
structure SceneObj where
  oid : ℕ
  hasMod : Bool
  isMesh : Bool
  kind : FsType
deriving DecidableEq

/-- Loop of fluid_validate_scene over the scene bases, threading the adopted
domain candidate and the two counters; `fsDomain` is the caller-provided
domain (never updated inside the loop, exactly as in the C). -/
def validate_loop (fsDomain : Option ℕ) : List SceneObj → Option ℕ → ℕ → ℕ →
    Except ValErr (Option ℕ × ℕ × ℕ)
  | [], newdomain, cCount, fCount => Except.ok (newdomain, cCount, fCount)
  | ob :: rest, newdomain, cCount, fCount =>
    if ob.hasMod = false ∨ ob.isMesh = false then
      validate_loop fsDomain rest newdomain cCount fCount
    else if ob.kind = FsType.domain ∧ fsDomain.isSome ∧ fsDomain ≠ some ob.oid then
      Except.error ValErr.multipleDomains
    else
      let newdomain :=
        if ob.kind = FsType.domain ∧ fsDomain = none then some ob.oid else newdomain
      let cCount :=
        if ob.kind ≠ FsType.domain ∧ ob.kind ≠ FsType.particle then cCount + 1 else cCount
      let fCount :=
        if ob.kind = FsType.fluid ∨ ob.kind = FsType.inflow then fCount + 1 else fCount
      validate_loop fsDomain rest newdomain cCount fCount

/-- fluid_validate_scene: scan the scene, then apply the post-loop checks in
source order (adopt candidate, no domain, >= 255 channel objects, no fluid
input). -/
def fluid_validate_scene (objs : List SceneObj) (fsDomain : Option ℕ) : ValResult :=
  match validate_loop fsDomain objs none 0 0 with
  | Except.error e => ValResult.err e
  | Except.ok (newdomain, cCount, fCount) =>
    let fsDomain2 := match newdomain with
      | some d => some d
      | none => fsDomain
    if fsDomain2 = none then ValResult.err ValErr.noDomain
    else if 255 ≤ cCount then ValResult.err ValErr.tooManyObjects
    else if fCount = 0 then ValResult.err ValErr.noFluidInput
    else ValResult.ok

/-- Number of channel objects of a scene: objects with a fluid modifier, of
mesh type, whose fluid-sim kind is neither DOMAIN nor PARTICLE. -/
def channelObjCount (objs : List SceneObj) : ℕ :=
  objs.countP (fun ob =>
    ob.hasMod && ob.isMesh && !(decide (ob.kind = FsType.domain)) && !(decide (ob.kind = FsType.particle)))

/-- Number of fluid input objects of a scene (FLUID or INFLOW kinds with a
fluid modifier on a mesh object). -/
def fluidInputCount (objs : List SceneObj) : ℕ :=
  objs.countP (fun ob =>
    ob.hasMod && ob.isMesh && (decide (ob.kind = FsType.fluid) || decide (ob.kind = FsType.inflow)))

/-- The scalar settings of fluidsimBake relevant to the solver invocation:
noFrames = efra - 0, channels->length = efra, aniFrameTime =
(animEnd - animStart) / noFrames, and fsset->noOfFrames = noFrames.  The bake
aborts before any of this when noFrames <= 0. -/
structure LegacySetup where
  noFrames : ℤ
  channelsLength : ℤ
  aniFrameTime : ℚ
  fssetNoOfFrames : ℤ
deriving DecidableEq

/-- The frame-count arithmetic of fluidsimBake ("No frames to export" when
efra - 0 <= 0). -/
def fluidsimBake_setup (efra : ℤ) (animStart animEnd : ℚ) : Option LegacySetup :=
  let noFrames := efra - 0
  if noFrames ≤ 0 then none
  else some { noFrames := noFrames, channelsLength := efra,
              aniFrameTime := (animEnd - animStart) / (noFrames : ℚ),
              fssetNoOfFrames := noFrames }

/-- Whether fluidsimBake reaches job creation: it returns early (scheduling
nothing) when the frame range is empty or scene validation fails. -/
def fluidsimBake_runs (efra : ℤ) (objs : List SceneObj) (fsDomain : Option ℕ) : Bool :=
  decide (0 < efra) && decide (fluid_validate_scene objs fsDomain = ValResult.ok)

/-- The two cache paths a resolver can hold: the user-stored surfdataPath /
cache_directory value, or the canonical default written by
modifier_path_init. -/
inductive CachePath
  | user
  | dflt
deriving DecidableEq

/-- The external filesystem interface of the path resolvers:
BLI_dir_create_recursive and BLI_file_is_writable per resolved path. -/
structure PathFS where
  createOk : CachePath → Bool
  writableOk : CachePath → Bool

/-- Reports emitted by the path resolvers. -/
inductive PathReport
  | warnEmptyReset
  | errFirstCheckFailed
  | errDefaultFailed
deriving DecidableEq

/-- fluid_init_filepaths (legacy path resolver).  Result: (whether the bake
may proceed, final stored path, reports emitted).  An empty stored path is
first reset to the default with a warning; then the directory is created and
probed for writability; on failure the stored path is reset to the default,
an error is reported, the default is created and probed (with a second error
if that also fails), and the function returns false unconditionally in that
branch. -/
def fluid_init_filepaths (storedEmpty : Bool) (fs : PathFS) :
    Bool × CachePath × List PathReport :=
  let stored := if storedEmpty then CachePath.dflt else CachePath.user
  let reps : List PathReport := if storedEmpty then [PathReport.warnEmptyReset] else []
  let dir_exists := fs.createOk stored
  let is_writable := fs.writableOk stored
  if dir_exists = false ∨ is_writable = false then
    let reps := reps ++ [PathReport.errFirstCheckFailed]
    let retryOk := fs.createOk CachePath.dflt && fs.writableOk CachePath.dflt
    let reps := if retryOk then reps else reps ++ [PathReport.errDefaultFailed]
    (false, CachePath.dflt, reps)
  else (true, stored, reps)

/-- fluid_manta_initpaths (mantaflow path resolver): same shape as the legacy
resolver but with only the directory-creation check (no writability probe). -/
def fluid_manta_initpaths (storedEmpty : Bool) (fs : PathFS) :
    Bool × CachePath × List PathReport :=
  let stored := if storedEmpty then CachePath.dflt else CachePath.user
  let reps : List PathReport := if storedEmpty then [PathReport.warnEmptyReset] else []
  let dir_exists := fs.createOk stored
  if dir_exists = false then
    let reps := reps ++ [PathReport.errFirstCheckFailed]
    let retryOk := fs.createOk CachePath.dflt
    let reps := if retryOk then reps else reps ++ [PathReport.errDefaultFailed]
    (false, CachePath.dflt, reps)
  else (true, stored, reps)

/-- The ten FLUID_DOMAIN_BAKING_* / BAKED_* bits of sds->cache_flag.  The C
masks combine distinct bits, so the bitset is modelled as ten independent
Booleans. -/
structure CacheFlag where
  bakingData : Bool
  bakedData : Bool
  bakingNoise : Bool
  bakedNoise : Bool
  bakingMesh : Bool
  bakedMesh : Bool
  bakingParticles : Bool
  bakedParticles : Bool
  bakingGuiding : Bool
  bakedGuiding : Bool
deriving DecidableEq

/-- The five bake/free stages of the mantaflow controller. -/
inductive Stage
  | data
  | noise
  | mesh
  | particles
  | guiding
deriving DecidableEq

/-- The per-stage cache sub-directories (FLUID_DOMAIN_DIR_*). -/
inductive StageDir
  | data
  | noise
  | mesh
  | particles
  | guiding
  | script
deriving DecidableEq

/-- Sub-directory of one stage. -/
def stageDirOf : Stage → StageDir
  | Stage.data => StageDir.data
  | Stage.noise => StageDir.noise
  | Stage.mesh => StageDir.mesh
  | Stage.particles => StageDir.particles
  | Stage.guiding => StageDir.guiding

/-- The mantaflow-relevant slice of SmokeDomainSettings plus the on-disk set
of existing cache sub-directories; `errorSet` models sds->error holding a
non-empty message. -/
structure SmokeDomainState where
  cache_flag : CacheFlag
  cache_frame_start : ℤ
  cache_frame_end : ℤ
  cache_frame_pause_data : ℤ
  cache_frame_pause_noise : ℤ
  cache_frame_pause_mesh : ℤ
  cache_frame_pause_particles : ℤ
  cache_frame_pause_guiding : ℤ
  dirs : List StageDir
  errorSet : Bool
deriving DecidableEq

/-- Pause frame of a stage (the field job->pause_frame points at). -/
def getPause (s : Stage) (d : SmokeDomainState) : ℤ :=
  match s with
  | Stage.data => d.cache_frame_pause_data
  | Stage.noise => d.cache_frame_pause_noise
  | Stage.mesh => d.cache_frame_pause_mesh
  | Stage.particles => d.cache_frame_pause_particles
  | Stage.guiding => d.cache_frame_pause_guiding

/-- Store a stage's pause frame. -/
def setPause (s : Stage) (v : ℤ) (d : SmokeDomainState) : SmokeDomainState :=
  match s with
  | Stage.data => { d with cache_frame_pause_data := v }
  | Stage.noise => { d with cache_frame_pause_noise := v }
  | Stage.mesh => { d with cache_frame_pause_mesh := v }
  | Stage.particles => { d with cache_frame_pause_particles := v }
  | Stage.guiding => { d with cache_frame_pause_guiding := v }

/-- Read a stage's BAKING bit. -/
def getBaking (s : Stage) (f : CacheFlag) : Bool :=
  match s with
  | Stage.data => f.bakingData
  | Stage.noise => f.bakingNoise
  | Stage.mesh => f.bakingMesh
  | Stage.particles => f.bakingParticles
  | Stage.guiding => f.bakingGuiding

/-- Read a stage's BAKED bit. -/
def getBaked (s : Stage) (f : CacheFlag) : Bool :=
  match s with
  | Stage.data => f.bakedData
  | Stage.noise => f.bakedNoise
  | Stage.mesh => f.bakedMesh
  | Stage.particles => f.bakedParticles
  | Stage.guiding => f.bakedGuiding

/-- The flag update of fluid_manta_bake_startjob:
cache_flag &= ~BAKED_X; cache_flag |= BAKING_X. -/
def bake_startjob_flags (s : Stage) (f : CacheFlag) : CacheFlag :=
  match s with
  | Stage.data => { f with bakedData := false, bakingData := true }
  | Stage.noise => { f with bakedNoise := false, bakingNoise := true }
  | Stage.mesh => { f with bakedMesh := false, bakingMesh := true }
  | Stage.particles => { f with bakedParticles := false, bakingParticles := true }
  | Stage.guiding => { f with bakedGuiding := false, bakingGuiding := true }

/-- The flag update of fluid_manta_bake_endjob:
cache_flag &= ~BAKING_X; cache_flag |= BAKED_X (applied unconditionally when
the job ends, whatever job->success says). -/
def bake_endjob_flags (s : Stage) (f : CacheFlag) : CacheFlag :=
  match s with
  | Stage.data => { f with bakingData := false, bakedData := true }
  | Stage.noise => { f with bakingNoise := false, bakedNoise := true }
  | Stage.mesh => { f with bakingMesh := false, bakedMesh := true }
  | Stage.particles => { f with bakingParticles := false, bakedParticles := true }
  | Stage.guiding => { f with bakingGuiding := false, bakedGuiding := true }

/-- BLI_dir_create_recursive on a cache sub-directory. -/
def createDir (x : StageDir) (dirs : List StageDir) : List StageDir :=
  if x ∈ dirs then dirs else x :: dirs

/-- `if (BLI_exists(dir)) BLI_delete(dir, true, true)` on a sub-directory. -/
def deleteDir (x : StageDir) (dirs : List StageDir) : List StageDir :=
  dirs.filter (fun y => decide (y ≠ x))

/-- The frame loop of fluid_manta_bake_sequence.  Arguments: the process
global break flag sampled at each frame, the number of remaining iterations
((endF + 1 - frame).toNat, so the loop exits exactly when frame passes
cache_frame_end), the running frame, the stage pause slot and the scene cfra.
Each iteration first records the frame in the pause slot, then tests the
break flag (returning success = false without restoring cfra), then publishes
progress and re-evaluates the scene at the frame.  Returns
(pause, cfra, success). -/
def manta_seq_loop (brk : ℤ → Bool) : ℕ → ℤ → ℤ → ℤ → ℤ × ℤ × Bool
  | 0, _, pause, cfra => (pause, cfra, true)
  | fuel + 1, frame, _pause, cfra =>
      if brk frame then (frame, cfra, false)
      else manta_seq_loop brk fuel (frame + 1) frame frame

/-- The initial frame of a bake sequence: cache_frame_start on a fresh bake
(pause slot 0), else the stored pause frame. -/
def seq_start_frame (s : Stage) (d : SmokeDomainState) : ℤ :=
  if getPause s d = 0 then d.cache_frame_start else getPause s d

/-- Packaging of a frame-loop result (pause, cfra, success) into the state
after fluid_manta_bake_sequence: the pause slot receives the loop's final
value, and the original scene frame is restored only on the non-cancelled
exit path (the cancelled return skips the restore). -/
def mk_seq_result (s : Stage) (d : SmokeDomainState) (cfra0 : ℤ) (r : ℤ × ℤ × Bool) :
    SmokeDomainState × ℤ × Bool :=
  (setPause s r.1 d, (if r.2.2 then cfra0 else r.2.1), r.2.2)

/-- fluid_manta_bake_sequence: guard the empty frame range (storing an error
in the domain while leaving job->success at 1), choose the initial frame from
the pause slot, then run the frame loop over frames
seq_start_frame .. cache_frame_end. -/
def fluid_manta_bake_sequence (s : Stage) (brk : ℤ → Bool) (d : SmokeDomainState)
    (cfra0 : ℤ) : SmokeDomainState × ℤ × Bool :=
  if d.cache_frame_end - d.cache_frame_start + 1 ≤ 0 then
    ({ d with errorSet := true }, cfra0, true)
  else
    mk_seq_result s d cfra0
      (manta_seq_loop brk (d.cache_frame_end + 1 - seq_start_frame s d).toNat
        (seq_start_frame s d) (getPause s d) (seq_start_frame s d))

/-- fluid_manta_bake_startjob: create the stage sub-directory, clear BAKED_X
and set BAKING_X, pick the stage's pause slot, then run the bake sequence. -/
def fluid_manta_bake_startjob (s : Stage) (brk : ℤ → Bool) (d : SmokeDomainState)
    (cfra : ℤ) : SmokeDomainState × ℤ × Bool :=
  let d1 := { d with dirs := createDir (stageDirOf s) d.dirs,
                     cache_flag := bake_startjob_flags s d.cache_flag }
  fluid_manta_bake_sequence s brk d1 cfra

/-- fluid_manta_bake_endjob applied to the domain state: flips the stage to
BAKED unconditionally (the success flag only selects the report level). -/
def fluid_manta_bake_endjob (s : Stage) (d : SmokeDomainState) : SmokeDomainState :=
  { d with cache_flag := bake_endjob_flags s d.cache_flag }

/-- A whole mantaflow bake job as run by the job system: startjob (which runs
the frame sequence) followed by endjob.  Returns the final domain state, the
final scene frame and job->success. -/
def manta_bake_job (s : Stage) (brk : ℤ → Bool) (d : SmokeDomainState)
    (cfra : ℤ) : SmokeDomainState × ℤ × Bool :=
  (fluid_manta_bake_endjob s (fluid_manta_bake_startjob s brk d cfra).1,
   (fluid_manta_bake_startjob s brk d cfra).2)

/-- fluid_manta_free_startjob: per free type, clear the stage state bits
(for DATA also the NOISE, MESH and PARTICLES bits), delete the corresponding
cache sub-directories, reset that stage's pause frame, and set the scene frame
to cache_frame_start.  Returns the updated domain and the new scene frame. -/
def fluid_manta_free_startjob (s : Stage) (d : SmokeDomainState) :
    SmokeDomainState × ℤ :=
  let d2 :=
    match s with
    | Stage.data =>
      { d with
        cache_flag := { d.cache_flag with
          bakingData := false, bakedData := false,
          bakingNoise := false, bakedNoise := false,
          bakingMesh := false, bakedMesh := false,
          bakingParticles := false, bakedParticles := false },
        dirs := deleteDir StageDir.particles (deleteDir StageDir.mesh
          (deleteDir StageDir.noise (deleteDir StageDir.data d.dirs))),
        cache_frame_pause_data := 0 }
    | Stage.noise =>
      { d with
        cache_flag := { d.cache_flag with bakingNoise := false, bakedNoise := false },
        dirs := deleteDir StageDir.noise d.dirs,
        cache_frame_pause_noise := 0 }
    | Stage.mesh =>
      { d with
        cache_flag := { d.cache_flag with bakingMesh := false, bakedMesh := false },
        dirs := deleteDir StageDir.mesh d.dirs,
        cache_frame_pause_mesh := 0 }
    | Stage.particles =>
      { d with
        cache_flag := { d.cache_flag with bakingParticles := false, bakedParticles := false },
        dirs := deleteDir StageDir.particles d.dirs,
        cache_frame_pause_particles := 0 }
    | Stage.guiding =>
      { d with
        cache_flag := { d.cache_flag with bakingGuiding := false, bakedGuiding := false },
        dirs := deleteDir StageDir.guiding d.dirs,
        cache_frame_pause_guiding := 0 }
  (d2, d2.cache_frame_start)

/-- Exit codes of an operator. -/
inductive OperatorResult
  | finished
  | cancelled
  | runningModal
deriving DecidableEq

/-- The guard section of fluid_manta_free_exec before any job is scheduled:
missing modifier, missing domain, then the pending-bake mutex check, whose
mask is BAKING_DATA | BAKING_NOISE | BAKING_MESH | BAKING_PARTICLES (the
BAKING_GUIDING bit is not part of the mask). -/
def fluid_manta_free_exec (hasModifier hasDomain : Bool) (f : CacheFlag) :
    OperatorResult :=
  if hasModifier = false then OperatorResult.cancelled
  else if hasDomain = false then OperatorResult.cancelled
  else if f.bakingData || f.bakingNoise || f.bakingMesh || f.bakingParticles then
    OperatorResult.cancelled
  else OperatorResult.finished

/-- A cache-flag value with every bit cleared. -/
def cacheFlagClear : CacheFlag :=
  { bakingData := false, bakedData := false, bakingNoise := false, bakedNoise := false,
    bakingMesh := false, bakedMesh := false, bakingParticles := false, bakedParticles := false,
    bakingGuiding := false, bakedGuiding := false }

/-- Concrete mantaflow domain: frames 1..3, untouched DATA pause marker,
nonzero pause markers for the other stages, three cache sub-directories on
disk. -/
def exampleDomain : SmokeDomainState where
  cache_flag := cacheFlagClear
  cache_frame_start := 1
  cache_frame_end := 3
  cache_frame_pause_data := 0
  cache_frame_pause_noise := 7
  cache_frame_pause_mesh := 8
  cache_frame_pause_particles := 9
  cache_frame_pause_guiding := 11
  dirs := [StageDir.data, StageDir.noise, StageDir.guiding]
  errorSet := false

/-- Same domain with a NOISE pause marker inside the frame range (a previously
interrupted noise bake). -/
def exampleDomainPausedNoise : SmokeDomainState :=
  { exampleDomain with cache_frame_pause_noise := 2 }

/-- Break flag raised when the user cancels at frame 2. -/
def breakAtTwo : ℤ → Bool := fun f => f == 2

/-- Break flag raised when the user cancels at frame 3. -/
def breakAtThree : ℤ → Bool := fun f => f == 3

/-- Domain evaluation with animStart = 0 and constant rate 1 (the literal
end-to-end scenario of the spec). -/
def scenarioDomainEval : DomainEval where
  useGlobalGravity := false
  sceneGravityAt := fun _ => (0, 0, 0)
  gravAt := fun _ => (0, 0, -10)
  animRateAt := fun _ => 1
  viscosityExponentAt := fun _ => 6
  viscosityValueAt := fun _ => 1
  animStart := 0

/-- Domain evaluation with animStart = 1 (used to separate the frame index
from the timeAtFrame values). -/
def offsetDomainEval : DomainEval :=
  { scenarioDomainEval with animStart := 1 }

/-- A participating object with constant animation data. -/
def mkSimpleObj (oid : ℕ) (k : FsType) : FluidObjIn where
  oid := oid
  hasMod := true
  isMesh := true
  kind := k
  novecgen := false
  flagActiveAt := fun _ => true
  locAt := fun _ => (1, 2, 3)
  sizeAt := fun _ => (1, 1, 1)
  iniVelAt := fun _ => (0, 0, 0)
  attractforceStrengthAt := fun _ => 0
  attractforceRadiusAt := fun _ => 0
  velocityforceStrengthAt := fun _ => 0
  velocityforceRadiusAt := fun _ => 0
  compatEulAt := fun _ _ => (0, 0, 0)
  numVerts0 := 0
  numTris0 := 0
  numVertsAt := fun _ => 0
  vertsAt := fun _ => []

/-- An animated control object whose mesh keeps two vertices on every
evaluated frame. -/
def animatedControlObj : FluidObjIn :=
  { mkSimpleObj 3 FsType.control with
    numVerts0 := 2, numVertsAt := fun _ => 2, vertsAt := fun _ => [1, 2, 3, 4, 5, 6] }

/-- Channel-sampler view of the literal scenario scene: one domain and one
FLUID inflow object. -/
def c3SceneChannels : List FluidObjIn :=
  [mkSimpleObj 0 FsType.domain, mkSimpleObj 1 FsType.fluid]

/-- Validator view of the literal scenario scene. -/
def c3SceneValidate : List SceneObj :=
  [⟨0, true, true, FsType.domain⟩, ⟨1, true, true, FsType.fluid⟩]

/-- Scene for the channel-invariant witness: a domain and an animated control
object, baked over two frames. -/
def c2WitnessScene : List FluidObjIn :=
  [mkSimpleObj 0 FsType.domain, animatedControlObj]

/-- A vertex-cache channel allocated for two frames of a two-vertex mesh
(framesize 3*2+1 = 7). -/
def c4VertexChan : VertexChan :=
  { ptr := true, alive := true, buf := List.replicate 14 0 }

/-- A scene holding two DOMAIN objects and one FLUID object. -/
def c5Scene : List SceneObj :=
  [⟨0, true, true, FsType.domain⟩, ⟨1, true, true, FsType.domain⟩, ⟨2, true, true, FsType.fluid⟩]

/-- A scene with one domain and exactly 255 non-domain, non-particle objects
(one FLUID plus 254 obstacles). -/
def c6Scene : List SceneObj :=
  ⟨0, true, true, FsType.domain⟩ :: ⟨1, true, true, FsType.fluid⟩ ::
    List.replicate 254 ⟨2, true, true, FsType.obstacle⟩

/-- A small valid scene: one domain, one FLUID object. -/
def c6SmallScene : List SceneObj :=
  [⟨0, true, true, FsType.domain⟩, ⟨1, true, true, FsType.fluid⟩]

/-- A filesystem on which the user path cannot be created but the default
path can and is writable. -/
def c7FS : PathFS :=
  { createOk := fun p => decide (p = CachePath.dflt), writableOk := fun _ => true }

/-- Cache flags with only the GUIDING stage marked as currently baking. -/
def c8Flags : CacheFlag :=
  { cacheFlagClear with bakingGuiding := true }

/-- The observable sample count of an optional channel buffer (the number of
floats the allocation holds; `none` models a NULL channel pointer). -/
def chanSamples (c : Option (List ℚ)) : Option ℕ := c.map List.length

/-- Whether allocation gives an object a vertex cache: it must not be skipped
as DOMAIN/PARTICLE and must be an animated mesh. -/
def objHasVC (o : FluidObjIn) : Bool :=
  !(decide (o.kind = FsType.domain ∨ o.kind = FsType.particle)) && fluid_is_animated_mesh o

/-- Buffer sizes of one FluidObject after a bake of length N: every allocated
channel holds exactly N samples of its stride (stride 4 for vectors, 2 for
scalars, 3V+1 for the vertex cache with V the recorded vertex count). -/
def objBuffersWF (N : ℕ) (fs : FObjState) : Prop :=
  ¬(fs.obj.kind = FsType.domain ∨ fs.obj.kind = FsType.particle) →
    (chanSamples fs.Translation = some (N * (CHANNEL_VEC + 1)) ∧
     chanSamples fs.Rotation = some (N * (CHANNEL_VEC + 1)) ∧
     chanSamples fs.Scale = some (N * (CHANNEL_VEC + 1)) ∧
     chanSamples fs.Active = some (N * (CHANNEL_FLOAT + 1)) ∧
     chanSamples fs.InitialVelocity = some (N * (CHANNEL_VEC + 1)) ∧
     (fs.obj.kind = FsType.control →
        chanSamples fs.AttractforceStrength = some (N * (CHANNEL_FLOAT + 1)) ∧
        chanSamples fs.AttractforceRadius = some (N * (CHANNEL_FLOAT + 1)) ∧
        chanSamples fs.VelocityforceStrength = some (N * (CHANNEL_FLOAT + 1)) ∧
        chanSamples fs.VelocityforceRadius = some (N * (CHANNEL_FLOAT + 1))) ∧
     (fluid_is_animated_mesh fs.obj = true →
        fs.VertexCache.ptr = true ∧
        fs.VertexCache.buf.length = N * (fs.numVerts * CHANNEL_VEC + 1)))

/-- Invariant carried by every FluidObject state across the filling loop:
buffer sizes are as allocated, the vertex-cache pointer and recorded vertex
count agree with the allocation, a NULL pointer was never allocated (so it is
not alive), and a non-NULL vertex cache stays allocated as long as every
evaluated frame reports the recorded vertex count. -/
def objInv (N : ℕ) (fs : FObjState) : Prop :=
  objBuffersWF N fs ∧
  fs.VertexCache.ptr = objHasVC fs.obj ∧
  fs.numVerts = (if objHasVC fs.obj = true then fs.obj.numVerts0 else 0) ∧
  (fs.VertexCache.ptr = false → fs.VertexCache.alive = false) ∧
  (fs.VertexCache.ptr = true →
     (∀ j < N, fs.obj.numVertsAt j = fs.numVerts) → fs.VertexCache.alive = true)

/-- Reading a list slot other than the one just written is unchanged. -/
theorem getD_set_ne (l : List ℚ) {i j : ℕ} (a : ℚ) (h : i ≠ j) :
    (l.set i a).getD j 0 = l.getD j 0 := by
  simp [List.getD, List.getElem?_set_ne h]

/-- Reading back an in-range write returns the written value. -/
theorem getD_set_self (l : List ℚ) {i : ℕ} (a : ℚ) (h : i < l.length) :
    (l.set i a).getD i 0 = a := by
  simp [List.getD, List.getElem?_set_self, h]

/-- set_channel preserves the buffer allocation size. -/
theorem length_set_channel (c : List ℚ) (t : ℚ) (v : ChannelValue) (i : ℕ) :
    (set_channel c t v i).length = c.length := by
  cases v <;> simp [set_channel]

/-- Claim C9: running free on the DATA stage clears the BAKING and BAKED bits
of DATA, NOISE, MESH and PARTICLES and deletes the data, noise, mesh and
particles cache sub-directories, while both GUIDING bits and the guiding
sub-directory are left unchanged. -/
theorem c9_free_data_cascade (d : SmokeDomainState) :
    (fluid_manta_free_startjob Stage.data d).1.cache_flag.bakingData = false ∧
    (fluid_manta_free_startjob Stage.data d).1.cache_flag.bakedData = false ∧
    (fluid_manta_free_startjob Stage.data d).1.cache_flag.bakingNoise = false ∧
    (fluid_manta_free_startjob Stage.data d).1.cache_flag.bakedNoise = false ∧
    (fluid_manta_free_startjob Stage.data d).1.cache_flag.bakingMesh = false ∧
    (fluid_manta_free_startjob Stage.data d).1.cache_flag.bakedMesh = false ∧
    (fluid_manta_free_startjob Stage.data d).1.cache_flag.bakingParticles = false ∧
    (fluid_manta_free_startjob Stage.data d).1.cache_flag.bakedParticles = false ∧
    (fluid_manta_free_startjob Stage.data d).1.cache_flag.bakingGuiding = d.cache_flag.bakingGuiding ∧
    (fluid_manta_free_startjob Stage.data d).1.cache_flag.bakedGuiding = d.cache_flag.bakedGuiding ∧
    StageDir.data ∉ (fluid_manta_free_startjob Stage.data d).1.dirs ∧
    StageDir.noise ∉ (fluid_manta_free_startjob Stage.data d).1.dirs ∧
    StageDir.mesh ∉ (fluid_manta_free_startjob Stage.data d).1.dirs ∧
    StageDir.particles ∉ (fluid_manta_free_startjob Stage.data d).1.dirs ∧
    (StageDir.guiding ∈ (fluid_manta_free_startjob Stage.data d).1.dirs ↔
       StageDir.guiding ∈ d.dirs) := by
  simp [fluid_manta_free_startjob, deleteDir, List.mem_filter]

/-- Claim C10: freeing the DATA stage resets only the DATA pause marker to 0;
the pause markers of NOISE, MESH, PARTICLES (and GUIDING) keep their previous
values. -/
theorem c10_free_data_pause_markers (d : SmokeDomainState) :
    (fluid_manta_free_startjob Stage.data d).1.cache_frame_pause_data = 0 ∧
    (fluid_manta_free_startjob Stage.data d).1.cache_frame_pause_noise = d.cache_frame_pause_noise ∧
    (fluid_manta_free_startjob Stage.data d).1.cache_frame_pause_mesh = d.cache_frame_pause_mesh ∧
    (fluid_manta_free_startjob Stage.data d).1.cache_frame_pause_particles = d.cache_frame_pause_particles ∧
    (fluid_manta_free_startjob Stage.data d).1.cache_frame_pause_guiding = d.cache_frame_pause_guiding := by
  simp [fluid_manta_free_startjob]

/-- Claim C8, counterexample: a domain whose only set bit is BAKING_GUIDING
is not rejected by fluid_manta_free_exec; the free operator schedules its job
and returns FINISHED, refuting "rejected ... whenever any BAKING_* bit of any
stage — DATA, NOISE, MESH, PARTICLES, or GUIDING — is set". -/
theorem c8_counterexample :
    c8Flags.bakingGuiding = true ∧
    fluid_manta_free_exec true true c8Flags = OperatorResult.finished := by
  decide

/-- Claim C8, amended: with a fluid modifier and a valid domain present, a
mantaflow free operation is rejected (CANCELLED before any job is scheduled)
exactly when one of the BAKING bits of DATA, NOISE, MESH or PARTICLES is set;
the BAKING_GUIDING bit is not part of the mutex mask. -/
theorem c8_amended_free_mutex (f : CacheFlag) :
    fluid_manta_free_exec true true f = OperatorResult.cancelled ↔
      (f.bakingData = true ∨ f.bakingNoise = true ∨ f.bakingMesh = true ∨
       f.bakingParticles = true) := by
  cases hd : f.bakingData <;> cases hn : f.bakingNoise <;> cases hm : f.bakingMesh <;>
    cases hp : f.bakingParticles <;> simp [fluid_manta_free_exec, hd, hn, hm, hp]

/-- Claim C7, counterexample: the stored cache path fails its first
existence/writability check while the default path passes the retry, yet
fluid_init_filepaths still returns failure and the bake is aborted — refuting
"if the retry with the default path succeeds, the bake proceeds". -/
theorem c7_counterexample :
    (c7FS.createOk CachePath.dflt && c7FS.writableOk CachePath.dflt) = true ∧
    c7FS.createOk CachePath.user = false ∧
    (fluid_init_filepaths false c7FS).1 = false := by
  decide

/-- Claim C7, amended: when the first existence/writability check of the
cache directory fails, the resolver resets the stored path to the default,
reports a hard error immediately, and retries the checks on the default path
(reporting a second error if they fail again) — but it returns failure and
aborts the bake in every such case; the bake proceeds if and only if the
first check succeeds.  The same holds for the mantaflow resolver, whose only
check is directory creation. -/
theorem c7_amended_path_failure (storedEmpty : Bool) (fs : PathFS) :
    ((fluid_init_filepaths storedEmpty fs).1 = true ↔
       (fs.createOk (if storedEmpty then CachePath.dflt else CachePath.user) = true ∧
        fs.writableOk (if storedEmpty then CachePath.dflt else CachePath.user) = true)) ∧
    (PathReport.errFirstCheckFailed ∈ (fluid_init_filepaths storedEmpty fs).2.2 ↔
       ¬(fs.createOk (if storedEmpty then CachePath.dflt else CachePath.user) = true ∧
         fs.writableOk (if storedEmpty then CachePath.dflt else CachePath.user) = true)) ∧
    ((fluid_manta_initpaths storedEmpty fs).1 = true ↔
       fs.createOk (if storedEmpty then CachePath.dflt else CachePath.user) = true) ∧
    (PathReport.errFirstCheckFailed ∈ (fluid_manta_initpaths storedEmpty fs).2.2 ↔
       ¬fs.createOk (if storedEmpty then CachePath.dflt else CachePath.user) = true) := by
  cases storedEmpty <;>
    cases hc : fs.createOk CachePath.user <;>
    cases hcd : fs.createOk CachePath.dflt <;>
    cases hw : fs.writableOk CachePath.user <;>
    cases hwd : fs.writableOk CachePath.dflt <;>
    simp [fluid_init_filepaths, fluid_manta_initpaths, hc, hcd, hw, hwd]

/-- Claim C4: evaluation of set_vertex_channel at the failing input.  The
cache was allocated for a two-vertex mesh; at frame 0 the mesh reports three
vertices, so the buffer is freed (alive = false) — but the caller's pointer
field is still set (ptr = true) and the buffer contents were not cleared; the
next set at frame 1 with a matching count is therefore not a no-op: it writes
frame data through the freed pointer. -/
theorem c4_code_evaluation :
    (set_vertex_channel c4VertexChan (1/2) 2 3 [9, 9, 9, 9, 9, 9, 9, 9, 9] 0).ptr = true ∧
    (set_vertex_channel c4VertexChan (1/2) 2 3 [9, 9, 9, 9, 9, 9, 9, 9, 9] 0).alive = false ∧
    (set_vertex_channel c4VertexChan (1/2) 2 3 [9, 9, 9, 9, 9, 9, 9, 9, 9] 0).buf = c4VertexChan.buf ∧
    set_vertex_channel (set_vertex_channel c4VertexChan (1/2) 2 3 [9, 9, 9, 9, 9, 9, 9, 9, 9] 0)
        (3/4) 2 2 [1, 2, 3, 4, 5, 6] 1 ≠
      set_vertex_channel c4VertexChan (1/2) 2 3 [9, 9, 9, 9, 9, 9, 9, 9, 9] 0 := by
  decide

/-- Claim C5, counterexample: with a null caller-provided domain and two
DOMAIN objects in the scene, validation succeeds (silently adopting the last
candidate) and the legacy bake proceeds to schedule a job — refuting "for
every scene containing two or more DOMAIN objects, legacy scene validation
fails ... including when the caller-provided domain is null". -/
theorem c5_counterexample :
    fluid_validate_scene c5Scene none = ValResult.ok ∧
    fluidsimBake_runs 5 c5Scene none = true := by
  decide

set_option maxRecDepth 4000 in
/-- Claim C6, counterexample: a scene with one domain, at least one FLUID
object and exactly 255 non-domain, non-particle objects is rejected with the
too-many-objects error (the code tests channelObjCount >= 255), refuting
"accepts a scene containing exactly 255 non-domain, non-particle objects". -/
theorem c6_counterexample :
    channelObjCount c6Scene = 255 ∧
    fluid_validate_scene c6Scene (some 0) = ValResult.err ValErr.tooManyObjects := by
  decide

/-- If the caller provides a domain and the scene holds a qualifying DOMAIN
object different from it, the validator loop stops with the multiple-domains
error, whatever state it carries. -/
theorem validate_loop_conflict (d : ℕ) :
    ∀ (objs : List SceneObj) (nd : Option ℕ) (cc fc : ℕ),
    (∃ ob ∈ objs, ob.hasMod = true ∧ ob.isMesh = true ∧ ob.kind = FsType.domain ∧ ob.oid ≠ d) →
    validate_loop (some d) objs nd cc fc = Except.error ValErr.multipleDomains := by
  intro objs
  induction objs with
  | nil =>
    intro nd cc fc h
    simp at h
  | cons ob rest ih =>
    intro nd cc fc h
    by_cases hskip : ob.hasMod = false ∨ ob.isMesh = false
    · rw [validate_loop, if_pos hskip]
      rcases h with ⟨x, hx, hmod, hmesh, hkind, hoid⟩
      rcases List.mem_cons.mp hx with rfl | hxrest
      · rcases hskip with h1 | h1
        · rw [hmod] at h1; exact absurd h1 (by simp)
        · rw [hmesh] at h1; exact absurd h1 (by simp)
      · exact ih nd cc fc ⟨x, hxrest, hmod, hmesh, hkind, hoid⟩
    · by_cases hconf : ob.kind = FsType.domain ∧ (some d : Option ℕ).isSome ∧
          (some d : Option ℕ) ≠ some ob.oid
      · rw [validate_loop, if_neg hskip, if_pos hconf]
      · rw [validate_loop, if_neg hskip, if_neg hconf]
        rcases h with ⟨x, hx, hmod, hmesh, hkind, hoid⟩
        rcases List.mem_cons.mp hx with rfl | hxrest
        · exact absurd ⟨hkind, by simp, by simpa using (Ne.symm hoid)⟩ hconf
        · exact ih _ _ _ ⟨x, hxrest, hmod, hmesh, hkind, hoid⟩

/-- Claim C5, amended: the multiple-domains validation error ("There should
be only one domain object") is reported — and the bake refuses to schedule a
job — when the caller provides a non-null domain and the scene contains a
DOMAIN mesh object with a fluid modifier different from it.  (When the caller
domain is null, the validator silently adopts the last DOMAIN candidate
instead of failing; see the counterexample.) -/
theorem c5_amended_domain_check (objs : List SceneObj) (d : ℕ)
    (h : ∃ ob ∈ objs, ob.hasMod = true ∧ ob.isMesh = true ∧ ob.kind = FsType.domain ∧ ob.oid ≠ d) :
    fluid_validate_scene objs (some d) = ValResult.err ValErr.multipleDomains ∧
    ∀ efra : ℤ, fluidsimBake_runs efra objs (some d) = false := by
  have hl := validate_loop_conflict d objs none 0 0 h
  refine ⟨by rw [fluid_validate_scene, hl], ?_⟩
  intro efra
  rw [fluidsimBake_runs, fluid_validate_scene, hl]
  simp

/-- Claim C5, witness: the amended statement applied to the two-domain scene
with caller domain 0. -/
theorem c5_amended_witness :
    (∃ ob ∈ c5Scene, ob.hasMod = true ∧ ob.isMesh = true ∧ ob.kind = FsType.domain ∧ ob.oid ≠ 0) ∧
    (fluid_validate_scene c5Scene (some 0) = ValResult.err ValErr.multipleDomains ∧
     ∀ efra : ℤ, fluidsimBake_runs efra c5Scene (some 0) = false) :=
  ⟨by decide, c5_amended_domain_check c5Scene 0 (by decide)⟩

/-- On a scene without conflicting domains the validator loop runs to the end
and accumulates exactly the channel-object and fluid-input counts. -/
theorem validate_loop_no_conflict (d : ℕ) :
    ∀ (objs : List SceneObj) (nd : Option ℕ) (cc fc : ℕ),
    (∀ ob ∈ objs, ob.hasMod = true → ob.isMesh = true → ob.kind = FsType.domain → ob.oid = d) →
    validate_loop (some d) objs nd cc fc =
      Except.ok (nd, cc + channelObjCount objs, fc + fluidInputCount objs) := by
  intro objs
  induction objs with
  | nil =>
    intro nd cc fc _h
    simp [validate_loop, channelObjCount, fluidInputCount]
  | cons ob rest ih =>
    intro nd cc fc h
    have hrest : ∀ ob2 ∈ rest, ob2.hasMod = true → ob2.isMesh = true →
        ob2.kind = FsType.domain → ob2.oid = d :=
      fun ob2 hm => h ob2 (List.mem_cons_of_mem _ hm)
    by_cases hskip : ob.hasMod = false ∨ ob.isMesh = false
    · rw [validate_loop, if_pos hskip, ih nd cc fc hrest]
      have hcc : channelObjCount (ob :: rest) = channelObjCount rest := by
        rcases hskip with h1 | h1 <;> simp [channelObjCount, List.countP_cons, h1]
      have hfc : fluidInputCount (ob :: rest) = fluidInputCount rest := by
        rcases hskip with h1 | h1 <;> simp [fluidInputCount, List.countP_cons, h1]
      rw [hcc, hfc]
    · have hmod : ob.hasMod = true := by
        cases hm : ob.hasMod
        · exact absurd (Or.inl hm) hskip
        · rfl
      have hmesh : ob.isMesh = true := by
        cases hm : ob.isMesh
        · exact absurd (Or.inr hm) hskip
        · rfl
      have hconf : ¬(ob.kind = FsType.domain ∧ (some d : Option ℕ).isSome ∧
          (some d : Option ℕ) ≠ some ob.oid) := by
        rintro ⟨hkind, -, hne⟩
        exact hne (by rw [h ob (List.mem_cons_self ob rest) hmod hmesh hkind])
      rw [validate_loop, if_neg hskip, if_neg hconf]
      have hnd : (if ob.kind = FsType.domain ∧ (some d : Option ℕ) = none
          then some ob.oid else nd) = nd := by
        simp
      rw [hnd, ih _ _ _ hrest]
      have hcc : channelObjCount (ob :: rest) =
          (if ob.kind ≠ FsType.domain ∧ ob.kind ≠ FsType.particle then 1 else 0) +
            channelObjCount rest := by
        by_cases hk : ob.kind ≠ FsType.domain ∧ ob.kind ≠ FsType.particle
        · simp [channelObjCount, List.countP_cons, hmod, hmesh, hk.1, hk.2, Nat.add_comm]
        · rw [if_neg hk]
          rcases Decidable.not_and_iff_or_not.mp hk with h1 | h1 <;>
            · simp only [Decidable.not_not] at h1
              simp [channelObjCount, List.countP_cons, h1]
      have hfc : fluidInputCount (ob :: rest) =
          (if ob.kind = FsType.fluid ∨ ob.kind = FsType.inflow then 1 else 0) +
            fluidInputCount rest := by
        by_cases hk : ob.kind = FsType.fluid ∨ ob.kind = FsType.inflow
        · rcases hk with h1 | h1 <;>
            simp [fluidInputCount, List.countP_cons, hmod, hmesh, h1, Nat.add_comm]
        · rw [if_neg hk]
          rcases not_or.mp hk with ⟨h1, h2⟩
          simp [fluidInputCount, List.countP_cons, h1, h2]
      rw [hcc, hfc]
      by_cases hk1 : ob.kind ≠ FsType.domain ∧ ob.kind ≠ FsType.particle <;>
        by_cases hk2 : ob.kind = FsType.fluid ∨ ob.kind = FsType.inflow <;>
          simp [hk1, hk2] <;> omega

/-- Claim C6, amended: with a caller-provided domain and no conflicting
DOMAIN object, legacy validation reports the too-many-objects error exactly
when the number of non-domain, non-particle channel objects is at least 255;
a scene is thus accepted with at most 254 such objects (the code message says
"more than 256" but the test is `channelObjCount >= 255`). -/
theorem c6_amended_object_limit (objs : List SceneObj) (d : ℕ)
    (h : ∀ ob ∈ objs, ob.hasMod = true → ob.isMesh = true → ob.kind = FsType.domain → ob.oid = d) :
    (fluid_validate_scene objs (some d) = ValResult.err ValErr.tooManyObjects ↔
       255 ≤ channelObjCount objs) := by
  have hl := validate_loop_no_conflict d objs none 0 0 h
  rw [fluid_validate_scene, hl]
  by_cases hc : 255 ≤ channelObjCount objs
  · simp [hc]
  · by_cases hf : fluidInputCount objs = 0 <;> simp [hc, hf]

/-- Claim C6, witness: the amended statement applied to a small conflict-free
scene (one domain, one FLUID object). -/
theorem c6_amended_witness :
    (∀ ob ∈ c6SmallScene, ob.hasMod = true → ob.isMesh = true →
       ob.kind = FsType.domain → ob.oid = 0) ∧
    (fluid_validate_scene c6SmallScene (some 0) = ValResult.err ValErr.tooManyObjects ↔
       255 ≤ channelObjCount c6SmallScene) :=
  ⟨by decide, c6_amended_object_limit c6SmallScene 0 (by decide)⟩

/-- Writing a stage's pause slot is read back by the matching accessor. -/
theorem getPause_setPause (s : Stage) (v : ℤ) (d : SmokeDomainState) :
    getPause s (setPause s v d) = v := by
  cases s <;> rfl

/-- Writing a pause slot leaves the cache flags alone. -/
theorem cache_flag_setPause (s : Stage) (v : ℤ) (d : SmokeDomainState) :
    (setPause s v d).cache_flag = d.cache_flag := by
  cases s <;> rfl

/-- The start-job flag update sets the stage's BAKING bit. -/
theorem getBaking_bake_startjob_flags (s : Stage) (f : CacheFlag) :
    getBaking s (bake_startjob_flags s f) = true := by
  cases s <;> rfl

/-- The start-job flag update clears the stage's BAKED bit. -/
theorem getBaked_bake_startjob_flags (s : Stage) (f : CacheFlag) :
    getBaked s (bake_startjob_flags s f) = false := by
  cases s <;> rfl

/-- The end-job flag update clears the stage's BAKING bit. -/
theorem getBaking_bake_endjob_flags (s : Stage) (f : CacheFlag) :
    getBaking s (bake_endjob_flags s f) = false := by
  cases s <;> rfl

/-- The end-job flag update sets the stage's BAKED bit. -/
theorem getBaked_bake_endjob_flags (s : Stage) (f : CacheFlag) :
    getBaked s (bake_endjob_flags s f) = true := by
  cases s <;> rfl

/-- A frame loop that reports cancellation was stopped by the break flag at
some frame within its range, and that frame is left in the pause slot. -/
theorem manta_seq_loop_break (brk : ℤ → Bool) :
    ∀ (fuel : ℕ) (frame pause cfra : ℤ),
    (manta_seq_loop brk fuel frame pause cfra).2.2 = false →
    ∃ f, brk f = true ∧ (manta_seq_loop brk fuel frame pause cfra).1 = f ∧
      frame ≤ f ∧ f < frame + fuel := by
  intro fuel
  induction fuel with
  | zero =>
    intro frame pause cfra h
    simp [manta_seq_loop] at h
  | succ n ih =>
    intro frame pause cfra h
    by_cases hb : brk frame = true
    · refine ⟨frame, hb, ?_, le_refl _, by omega⟩
      simp [manta_seq_loop, hb]
    · rw [manta_seq_loop, if_neg hb] at h
      rcases ih (frame + 1) frame frame h with ⟨f, hf, hr, h1, h2⟩
      refine ⟨f, hf, ?_, by omega, by omega⟩
      rw [manta_seq_loop, if_neg hb]
      exact hr

/-- A cancelled bake sequence leaves the cache flags untouched and stores the
break frame (which lies within the frame range) in the stage's pause slot. -/
theorem bake_sequence_cancelled (s : Stage) (brk : ℤ → Bool) (d : SmokeDomainState)
    (cfra : ℤ) (h : (fluid_manta_bake_sequence s brk d cfra).2.2 = false) :
    (fluid_manta_bake_sequence s brk d cfra).1.cache_flag = d.cache_flag ∧
    ∃ f, brk f = true ∧ f ≤ d.cache_frame_end ∧
      getPause s (fluid_manta_bake_sequence s brk d cfra).1 = f := by
  rw [fluid_manta_bake_sequence] at h ⊢
  by_cases hfr : d.cache_frame_end - d.cache_frame_start + 1 ≤ 0
  · rw [if_pos hfr] at h
    simp at h
  · rw [if_neg hfr] at h ⊢
    have hloop : (manta_seq_loop brk (d.cache_frame_end + 1 - seq_start_frame s d).toNat
        (seq_start_frame s d) (getPause s d) (seq_start_frame s d)).2.2 = false := h
    rcases manta_seq_loop_break brk _ _ _ _ hloop with ⟨f, hf, hr, hle, hlt⟩
    have hT : (d.cache_frame_end + 1 - seq_start_frame s d).toNat ≠ 0 := by
      intro h0
      rw [h0] at hloop
      simp [manta_seq_loop] at hloop
    exact ⟨cache_flag_setPause s _ d, f, hf, by omega,
      (getPause_setPause s _ d).trans hr⟩

/-- Claim C1, counterexample: a DATA bake over frames 1..3 cancelled by the
break flag at frame 2 (job->success = 0, pause marker left at 2, before the
final frame 3) nevertheless ends — once fluid_manta_bake_endjob has run —
with BAKING_DATA cleared and BAKED_DATA set, refuting "after the job ends the
stage still has its BAKING_X bit set and does not have the BAKED_X bit". -/
theorem c1_counterexample :
    (manta_bake_job Stage.data breakAtTwo exampleDomain 5).2.2 = false ∧
    (manta_bake_job Stage.data breakAtTwo exampleDomain 5).1.cache_frame_pause_data = 2 ∧
    exampleDomain.cache_frame_end = 3 ∧
    (manta_bake_job Stage.data breakAtTwo exampleDomain 5).1.cache_flag.bakingData = false ∧
    (manta_bake_job Stage.data breakAtTwo exampleDomain 5).1.cache_flag.bakedData = true := by
  decide

/-- Claim C1, amended: if a mantaflow bake of stage X is cancelled via the
break flag, then at the end of the start job (after the frame sequence, before
the end-job hook) the stage still has BAKING_X set, does not have BAKED_X,
and pause_X holds the frame at which the break was observed, so a resume from
pause_X is possible at that point; but the end-job hook that runs when the
job ends unconditionally clears BAKING_X and sets BAKED_X. -/
theorem c1_amended_cancel_flags (s : Stage) (brk : ℤ → Bool) (d : SmokeDomainState)
    (cfra : ℤ) (h : (fluid_manta_bake_startjob s brk d cfra).2.2 = false) :
    getBaking s (fluid_manta_bake_startjob s brk d cfra).1.cache_flag = true ∧
    getBaked s (fluid_manta_bake_startjob s brk d cfra).1.cache_flag = false ∧
    (∃ f, brk f = true ∧ f ≤ d.cache_frame_end ∧
       getPause s (fluid_manta_bake_startjob s brk d cfra).1 = f) ∧
    getBaking s (manta_bake_job s brk d cfra).1.cache_flag = false ∧
    getBaked s (manta_bake_job s brk d cfra).1.cache_flag = true := by
  have hseq := bake_sequence_cancelled s brk
    { d with dirs := createDir (stageDirOf s) d.dirs,
             cache_flag := bake_startjob_flags s d.cache_flag } cfra h
  rcases hseq with ⟨hflag, f, hf, hfe, hp⟩
  refine ⟨?_, ?_, ⟨f, hf, hfe, hp⟩, ?_, ?_⟩
  · rw [show (fluid_manta_bake_startjob s brk d cfra).1.cache_flag =
        bake_startjob_flags s d.cache_flag from hflag]
    exact getBaking_bake_startjob_flags s d.cache_flag
  · rw [show (fluid_manta_bake_startjob s brk d cfra).1.cache_flag =
        bake_startjob_flags s d.cache_flag from hflag]
    exact getBaked_bake_startjob_flags s d.cache_flag
  · exact getBaking_bake_endjob_flags s _
  · exact getBaked_bake_endjob_flags s _

/-- Claim C1, witness: the amended statement at a concrete cancelled NOISE
bake resumed from pause frame 2 and cancelled at frame 3. -/
theorem c1_amended_witness :
    (fluid_manta_bake_startjob Stage.noise breakAtThree exampleDomainPausedNoise 5).2.2 = false ∧
    (getBaking Stage.noise
        (fluid_manta_bake_startjob Stage.noise breakAtThree exampleDomainPausedNoise 5).1.cache_flag = true ∧
     getBaked Stage.noise
        (fluid_manta_bake_startjob Stage.noise breakAtThree exampleDomainPausedNoise 5).1.cache_flag = false ∧
     (∃ f, breakAtThree f = true ∧ f ≤ exampleDomainPausedNoise.cache_frame_end ∧
        getPause Stage.noise
          (fluid_manta_bake_startjob Stage.noise breakAtThree exampleDomainPausedNoise 5).1 = f) ∧
     getBaking Stage.noise
        (manta_bake_job Stage.noise breakAtThree exampleDomainPausedNoise 5).1.cache_flag = false ∧
     getBaked Stage.noise
        (manta_bake_job Stage.noise breakAtThree exampleDomainPausedNoise 5).1.cache_flag = true) :=
  ⟨by decide, c1_amended_cancel_flags Stage.noise breakAtThree exampleDomainPausedNoise 5 (by decide)⟩

unseal Rat.add Rat.mul Rat.inv Rat.sub in
/-- Claim C3, counterexample: in the literal scenario (frames 1..5, rate 1.0,
animStart 0, animEnd 1, aniFrameTime 1/5) the timeAtFrame array after channel
filling completes is not [0, 0, 0.2, 0.4, 0.6, 0.8]: the filling loop
overwrites slots 1..5 with the accumulated rate * aniFrameTime steps. -/
theorem c3_counterexample :
    (fluid_init_all_channels scenarioDomainEval 5 (1/5) c3SceneChannels).1.timeAtFrame ≠
      [0, 0, 1/5, 2/5, 3/5, 4/5] := by
  decide

unseal Rat.add Rat.mul Rat.inv Rat.sub in
/-- Claim C3, amended: for the single-domain, one-FLUID-inflow scene with
frames 1..5, rate 1.0, animStart = 0, animEnd = 1, the legacy bake validates
the scene, produces channels of length 5, invokes the solver with
noOfFrames = 5 and aniFrameTime = 1/5; the timeAtFrame array equals
[0, 0, 0.2, 0.4, 0.6, 0.8] after init_time (channel allocation), and after
channel filling completes it equals [0, 0.2, 0.4, 0.6, 0.8, 1.0]. -/
theorem c3_amended_scenario :
    fluid_validate_scene c3SceneValidate (some 0) = ValResult.ok ∧
    fluidsimBake_setup 5 0 1 = some ⟨5, 5, 1/5, 5⟩ ∧
    init_time 0 (1/5) 5 = [0, 0, 1/5, 2/5, 3/5, 4/5] ∧
    (fluid_init_all_channels scenarioDomainEval 5 (1/5) c3SceneChannels).1.length = 5 ∧
    (fluid_init_all_channels scenarioDomainEval 5 (1/5) c3SceneChannels).1.timeAtFrame =
      [0, 1/5, 2/5, 3/5, 4/5, 1] ∧
    (fluid_init_all_channels scenarioDomainEval 5 (1/5) c3SceneChannels).1.DomainTime.length = 5 * 2 ∧
    (fluid_init_all_channels scenarioDomainEval 5 (1/5) c3SceneChannels).1.DomainGravity.length = 5 * 4 ∧
    (fluid_init_all_channels scenarioDomainEval 5 (1/5) c3SceneChannels).1.DomainViscosity.length = 5 * 2 := by
  decide

unseal Rat.add Rat.mul Rat.inv Rat.sub in
/-- Claim C2, counterexample: with one bake frame, animStart = 1, rate 1 and
aniFrameTime = 1/5, the time slot of DomainTime at sample 0 is the loop index
0, while timeAtFrame[0+1] = 1 + 1/5; the claimed equality of the DomainTime
time slot with timeAtFrame[i+1] fails. -/
theorem c2_counterexample :
    (fluid_init_all_channels offsetDomainEval 1 (1/5) []).1.DomainTime.getD 1 0 = 0 ∧
    (fluid_init_all_channels offsetDomainEval 1 (1/5) []).1.timeAtFrame.getD 1 0 = 6/5 ∧
    (fluid_init_all_channels offsetDomainEval 1 (1/5) []).1.DomainTime.getD 1 0 ≠
      (fluid_init_all_channels offsetDomainEval 1 (1/5) []).1.timeAtFrame.getD 1 0 := by
  decide

/-- writeSeq preserves the buffer allocation size. -/
theorem length_writeSeq : ∀ (vals buf : List ℚ) (start : ℕ),
    (writeSeq buf start vals).length = buf.length := by
  intro vals
  induction vals with
  | nil => intro buf start; rfl
  | cons v rest ih => intro buf start; rw [writeSeq, ih]; simp

/-- set_vertex_channel never changes the caller's pointer field. -/
theorem ptr_set_vertex_channel (vc : VertexChan) (t : ℚ) (fv mv : ℕ)
    (verts : List ℚ) (i : ℕ) :
    (set_vertex_channel vc t fv mv verts i).ptr = vc.ptr := by
  simp only [set_vertex_channel]
  split
  · rfl
  · split <;> rfl

/-- set_vertex_channel preserves the buffer allocation size. -/
theorem length_buf_set_vertex_channel (vc : VertexChan) (t : ℚ) (fv mv : ℕ)
    (verts : List ℚ) (i : ℕ) :
    (set_vertex_channel vc t fv mv verts i).buf.length = vc.buf.length := by
  simp only [set_vertex_channel]
  split
  · rfl
  · split
    · rfl
    · simp [length_writeSeq]

/-- A set through a NULL vertex-cache pointer is a no-op. -/
theorem set_vertex_channel_null (vc : VertexChan) (t : ℚ) (fv mv : ℕ)
    (verts : List ℚ) (i : ℕ) (h : vc.ptr = false) :
    set_vertex_channel vc t fv mv verts i = vc := by
  simp [set_vertex_channel, h]

/-- A vertex-cache set with a matching vertex count does not free the
buffer. -/
theorem alive_set_vertex_channel (vc : VertexChan) (t : ℚ) (fv mv : ℕ)
    (verts : List ℚ) (i : ℕ) (h : mv = fv) :
    (set_vertex_channel vc t fv mv verts i).alive = vc.alive := by
  simp only [set_vertex_channel]
  split
  · rfl
  · split
    · rename_i hne
      exact absurd h hne
    · rfl

/-- Scalar set_channel leaves slots below its sample untouched. -/
theorem getD_set_channel_float_lower (c : List ℚ) (t v : ℚ) (i j : ℕ) (h : j < i * 2) :
    (set_channel c t (ChannelValue.float v) i).getD j 0 = c.getD j 0 := by
  simp only [set_channel]
  rw [getD_set_ne _ _ (by omega), getD_set_ne _ _ (by omega)]

/-- Vector set_channel leaves slots below its sample untouched. -/
theorem getD_set_channel_vec_lower (c : List ℚ) (t : ℚ) (v : Vec3) (i j : ℕ) (h : j < i * 4) :
    (set_channel c t (ChannelValue.vec v) i).getD j 0 = c.getD j 0 := by
  simp only [set_channel]
  rw [getD_set_ne _ _ (by omega), getD_set_ne _ _ (by omega),
    getD_set_ne _ _ (by omega), getD_set_ne _ _ (by omega)]

/-- The time slot written by a scalar set_channel. -/
theorem getD_set_channel_float_time (c : List ℚ) (t v : ℚ) (i : ℕ) (h : i * 2 + 1 < c.length) :
    (set_channel c t (ChannelValue.float v) i).getD (i * 2 + 1) 0 = t := by
  simp only [set_channel]
  exact getD_set_self _ _ (by simpa using h)

/-- The time slot written by a vector set_channel. -/
theorem getD_set_channel_vec_time (c : List ℚ) (t : ℚ) (v : Vec3) (i : ℕ)
    (h : i * 4 + 3 < c.length) :
    (set_channel c t (ChannelValue.vec v) i).getD (i * 4 + 3) 0 = t := by
  simp only [set_channel]
  exact getD_set_self _ _ (by simpa using h)

/-- set_channel through an optional pointer preserves the sample count. -/
theorem chanSamples_map_set_channel (c : Option (List ℚ)) (t : ℚ) (v : ChannelValue) (i : ℕ) :
    chanSamples (c.map (fun l => set_channel l t v i)) = chanSamples c := by
  cases c <;> simp [chanSamples, length_set_channel]

/-- The init_time loop preserves the timeAtFrame allocation size. -/
theorem length_init_time_loop (aft : ℚ) : ∀ (fuel i : ℕ) (taf : List ℚ),
    (init_time_loop aft fuel i taf).length = taf.length := by
  intro fuel
  induction fuel with
  | zero => intro i taf; rfl
  | succ n ih => intro i taf; rw [init_time_loop, ih]; simp

/-- timeAtFrame is allocated with length + 1 slots. -/
theorem length_init_time (s aft : ℚ) (N : ℕ) :
    (init_time s aft N).length = N + 1 := by
  simp [init_time, length_init_time_loop]

/-- One filling step on an object preserves its identity, recorded vertex
count, the sample count of every channel, the vertex-cache pointer and the
vertex-cache allocation size. -/
theorem fillObjFrame_fingerprint (i : ℕ) (t : ℚ) (fs : FObjState) :
    (fillObjFrame i t fs).obj = fs.obj ∧
    (fillObjFrame i t fs).numVerts = fs.numVerts ∧
    chanSamples (fillObjFrame i t fs).Translation = chanSamples fs.Translation ∧
    chanSamples (fillObjFrame i t fs).Rotation = chanSamples fs.Rotation ∧
    chanSamples (fillObjFrame i t fs).Scale = chanSamples fs.Scale ∧
    chanSamples (fillObjFrame i t fs).Active = chanSamples fs.Active ∧
    chanSamples (fillObjFrame i t fs).InitialVelocity = chanSamples fs.InitialVelocity ∧
    chanSamples (fillObjFrame i t fs).AttractforceStrength = chanSamples fs.AttractforceStrength ∧
    chanSamples (fillObjFrame i t fs).AttractforceRadius = chanSamples fs.AttractforceRadius ∧
    chanSamples (fillObjFrame i t fs).VelocityforceStrength = chanSamples fs.VelocityforceStrength ∧
    chanSamples (fillObjFrame i t fs).VelocityforceRadius = chanSamples fs.VelocityforceRadius ∧
    (fillObjFrame i t fs).VertexCache.ptr = fs.VertexCache.ptr ∧
    (fillObjFrame i t fs).VertexCache.buf.length = fs.VertexCache.buf.length := by
  simp only [fillObjFrame]
  split
  · simp
  · split <;> split <;>
      simp [chanSamples_map_set_channel, ptr_set_vertex_channel, length_buf_set_vertex_channel]

/-- One filling step does not free the vertex cache when the pointer is NULL
or the evaluated mesh has the recorded vertex count. -/
theorem alive_fillObjFrame (i : ℕ) (t : ℚ) (fs : FObjState)
    (h : fs.VertexCache.ptr = false ∨ fs.obj.numVertsAt i = fs.numVerts) :
    (fillObjFrame i t fs).VertexCache.alive = fs.VertexCache.alive := by
  simp only [fillObjFrame]
  split
  · rfl
  · rcases h with h | h
    · split <;> split <;> simp [set_vertex_channel_null, h]
    · split <;> split <;> simp [alive_set_vertex_channel, h]

/-- One filling step at a frame inside the bake range preserves the object
invariant. -/
theorem fillObjFrame_objInv (N i : ℕ) (hi : i < N) (t : ℚ) (fs : FObjState)
    (h : objInv N fs) : objInv N (fillObjFrame i t fs) := by
  obtain ⟨hwf, hptr, hnv, hdead, halive⟩ := h
  obtain ⟨hobj, hnum, h1, h2, h3, h4, h5, h6, h7, h8, h9, hvp, hvl⟩ :=
    fillObjFrame_fingerprint i t fs
  refine ⟨?_, ?_, ?_, ?_, ?_⟩
  · intro hskip
    rw [hobj] at hskip
    obtain ⟨w1, w2, w3, w4, w5, wctl, wvc⟩ := hwf hskip
    refine ⟨h1 ▸ w1, h2 ▸ w2, h3 ▸ w3, h4 ▸ w4, h5 ▸ w5, ?_, ?_⟩
    · intro hctl
      rw [hobj] at hctl
      obtain ⟨u1, u2, u3, u4⟩ := wctl hctl
      exact ⟨h6 ▸ u1, h7 ▸ u2, h8 ▸ u3, h9 ▸ u4⟩
    · intro hanim
      rw [hobj] at hanim
      obtain ⟨u1, u2⟩ := wvc hanim
      refine ⟨hvp ▸ u1, ?_⟩
      rw [hvl, hnum]
      exact u2
  · rw [hvp, hobj]
    exact hptr
  · rw [hnum, hobj]
    exact hnv
  · intro hfalse
    rw [hvp] at hfalse
    have := hdead hfalse
    rw [alive_fillObjFrame i t fs (Or.inl hfalse)]
    exact this
  · intro htrue hall
    rw [hvp] at htrue
    rw [hobj, hnum] at hall
    rw [alive_fillObjFrame i t fs (Or.inr (hall i hi))]
    exact halive htrue hall

/-- allocFluidObject keeps the object it was built from. -/
theorem allocFluidObject_obj (N : ℕ) (o : FluidObjIn) :
    (allocFluidObject N o).obj = o := by
  unfold allocFluidObject
  split <;> rfl

/-- Allocation establishes the object invariant. -/
theorem allocFluidObject_objInv (N : ℕ) (o : FluidObjIn) :
    objInv N (allocFluidObject N o) := by
  unfold objInv objBuffersWF allocFluidObject
  split
  · rename_i hskip
    refine ⟨?_, ?_, ?_, ?_, ?_⟩
    · intro hc
      exact absurd hskip hc
    · simp [objHasVC, hskip]
    · simp [objHasVC, hskip]
    · intro _
      rfl
    · intro habs
      simp at habs
  · rename_i hskip
    refine ⟨?_, ?_, ?_, ?_, ?_⟩
    · intro _
      refine ⟨by simp [chanSamples], by simp [chanSamples], by simp [chanSamples],
        by simp [chanSamples], by simp [chanSamples], ?_, ?_⟩
      · intro hctl
        have hctl2 : o.kind = FsType.control := hctl
        simp [chanSamples, hctl2]
      · intro hanim
        have hanim2 : fluid_is_animated_mesh o = true := hanim
        simp only [hanim2]
        constructor
        · simp
        · simp [CHANNEL_VEC, Nat.mul_comm]
    · by_cases hanim : fluid_is_animated_mesh o = true <;>
        simp [objHasVC, hskip, hanim]
    · by_cases hanim : fluid_is_animated_mesh o = true <;>
        simp [objHasVC, hskip, hanim]
    · by_cases hanim : fluid_is_animated_mesh o = true <;> simp [hanim]
    · by_cases hanim : fluid_is_animated_mesh o = true <;> simp [hanim]

/-- Every object of the filling loop's result still satisfies the object
invariant, provided the loop stays within the bake range. -/
theorem fillFramesAux_objInv (dev : DomainEval) (N : ℕ) :
    ∀ (fuel i : ℕ) (ch : FluidAnimChannels) (objs : List FObjState),
    i + fuel ≤ N →
    (∀ fs ∈ objs, objInv N fs) →
    ∀ fs2 ∈ (fillFramesAux dev fuel i ch objs).2, objInv N fs2 := by
  intro fuel
  induction fuel with
  | zero =>
    intro i ch objs _hle h fs2 hm
    exact h fs2 hm
  | succ n ih =>
    intro i ch objs hle h fs2 hm
    simp only [fillFramesAux] at hm
    refine ih (i + 1) _ _ (by omega) ?_ fs2 hm
    intro fs3 hm3
    simp only [fillFrame] at hm3
    rcases List.mem_map.mp hm3 with ⟨fs0, hfs0, rfl⟩
    exact fillObjFrame_objInv N i (by omega) _ fs0 (h fs0 hfs0)

/-- Every object of the filling loop's result descends from an input object
with the same underlying scene object. -/
theorem fillFramesAux_objs_origin (dev : DomainEval) :
    ∀ (fuel i : ℕ) (ch : FluidAnimChannels) (objs : List FObjState),
    ∀ fs2 ∈ (fillFramesAux dev fuel i ch objs).2, ∃ fs ∈ objs, fs2.obj = fs.obj := by
  intro fuel
  induction fuel with
  | zero =>
    intro i ch objs fs2 hm
    exact ⟨fs2, hm, rfl⟩
  | succ n ih =>
    intro i ch objs fs2 hm
    simp only [fillFramesAux] at hm
    rcases ih (i + 1) _ _ fs2 hm with ⟨fs1, hfs1, hq⟩
    simp only [fillFrame] at hfs1
    rcases List.mem_map.mp hfs1 with ⟨fs0, hfs0, rfl⟩
    exact ⟨fs0, hfs0, hq.trans ((fillObjFrame_fingerprint _ _ fs0).1)⟩

/-- The filling loop preserves the allocation sizes of the four domain-level
buffers. -/
theorem fillFramesAux_dom_lengths (dev : DomainEval) :
    ∀ (fuel i : ℕ) (ch : FluidAnimChannels) (objs : List FObjState),
    (fillFramesAux dev fuel i ch objs).1.timeAtFrame.length = ch.timeAtFrame.length ∧
    (fillFramesAux dev fuel i ch objs).1.DomainTime.length = ch.DomainTime.length ∧
    (fillFramesAux dev fuel i ch objs).1.DomainGravity.length = ch.DomainGravity.length ∧
    (fillFramesAux dev fuel i ch objs).1.DomainViscosity.length = ch.DomainViscosity.length := by
  intro fuel
  induction fuel with
  | zero =>
    intro i ch objs
    exact ⟨rfl, rfl, rfl, rfl⟩
  | succ n ih =>
    intro i ch objs
    simp only [fillFramesAux]
    obtain ⟨e1, e2, e3, e4⟩ := ih (i + 1) (fillFrame dev i ch objs).1 (fillFrame dev i ch objs).2
    refine ⟨e1.trans ?_, e2.trans ?_, e3.trans ?_, e4.trans ?_⟩ <;>
      simp [fillFrame, length_set_channel]

/-- The filling loop never writes timeAtFrame slots at or below its starting
frame index. -/
theorem fillFramesAux_taf_lower (dev : DomainEval) :
    ∀ (fuel i : ℕ) (ch : FluidAnimChannels) (objs : List FObjState) (j : ℕ), j ≤ i →
    (fillFramesAux dev fuel i ch objs).1.timeAtFrame.getD j 0 = ch.timeAtFrame.getD j 0 := by
  intro fuel
  induction fuel with
  | zero =>
    intro i ch objs j _hj
    rfl
  | succ n ih =>
    intro i ch objs j hj
    simp only [fillFramesAux]
    rw [ih (i + 1) _ _ j (by omega)]
    show (ch.timeAtFrame.set (i + 1) _).getD j 0 = ch.timeAtFrame.getD j 0
    exact getD_set_ne _ _ (by omega)

/-- The filling loop never writes domain-channel slots below its starting
sample. -/
theorem fillFramesAux_dom_lower (dev : DomainEval) :
    ∀ (fuel i : ℕ) (ch : FluidAnimChannels) (objs : List FObjState) (j : ℕ),
    (j < i * 2 → (fillFramesAux dev fuel i ch objs).1.DomainTime.getD j 0 = ch.DomainTime.getD j 0) ∧
    (j < i * 4 → (fillFramesAux dev fuel i ch objs).1.DomainGravity.getD j 0 = ch.DomainGravity.getD j 0) ∧
    (j < i * 2 → (fillFramesAux dev fuel i ch objs).1.DomainViscosity.getD j 0 = ch.DomainViscosity.getD j 0) := by
  intro fuel
  induction fuel with
  | zero =>
    intro i ch objs j
    exact ⟨fun _ => rfl, fun _ => rfl, fun _ => rfl⟩
  | succ n ih =>
    intro i ch objs j
    simp only [fillFramesAux]
    obtain ⟨e1, e2, e3⟩ := ih (i + 1) (fillFrame dev i ch objs).1 (fillFrame dev i ch objs).2 j
    refine ⟨?_, ?_, ?_⟩
    · intro hj
      rw [e1 (by omega)]
      exact getD_set_channel_float_lower _ _ _ _ _ hj
    · intro hj
      rw [e2 (by omega)]
      exact getD_set_channel_vec_lower _ _ _ _ _ hj
    · intro hj
      rw [e3 (by omega)]
      exact getD_set_channel_float_lower _ _ _ _ _ hj

/-- In the filling loop, every frame index j covered by the remaining
iterations ends with the gravity and viscosity time slots of sample j equal
to the final timeAtFrame[j+1], while the DomainTime time slot of sample j
holds the loop index j itself (the C passes `i` as the time argument of
set_channel for the DomainTime channel). -/
theorem fillFramesAux_dom_slots (dev : DomainEval) :
    ∀ (fuel i : ℕ) (ch : FluidAnimChannels) (objs : List FObjState) (j : ℕ),
    i ≤ j → j < i + fuel →
    j + 1 < ch.timeAtFrame.length →
    j * 2 + 1 < ch.DomainTime.length →
    j * 4 + 3 < ch.DomainGravity.length →
    j * 2 + 1 < ch.DomainViscosity.length →
    ((fillFramesAux dev fuel i ch objs).1.DomainGravity.getD (j * 4 + 3) 0 =
       (fillFramesAux dev fuel i ch objs).1.timeAtFrame.getD (j + 1) 0 ∧
     (fillFramesAux dev fuel i ch objs).1.DomainViscosity.getD (j * 2 + 1) 0 =
       (fillFramesAux dev fuel i ch objs).1.timeAtFrame.getD (j + 1) 0 ∧
     (fillFramesAux dev fuel i ch objs).1.DomainTime.getD (j * 2 + 1) 0 = (j : ℚ)) := by
  intro fuel
  induction fuel with
  | zero =>
    intro i ch objs j h1 h2 _ _ _ _
    exact absurd h2 (by omega)
  | succ n ih =>
    intro i ch objs j hij hj htaf hdt hdg hdv
    simp only [fillFramesAux]
    obtain ⟨l1, l2, l3⟩ := fillFramesAux_dom_lower dev n (i + 1)
      (fillFrame dev i ch objs).1 (fillFrame dev i ch objs).2 (j * 4 + 3)
    obtain ⟨m1, m2, m3⟩ := fillFramesAux_dom_lower dev n (i + 1)
      (fillFrame dev i ch objs).1 (fillFrame dev i ch objs).2 (j * 2 + 1)
    rcases Nat.eq_or_lt_of_le hij with rfl | hlt
    · have htlow := fillFramesAux_taf_lower dev n (i + 1)
        (fillFrame dev i ch objs).1 (fillFrame dev i ch objs).2 (i + 1) (le_refl _)
      have hstep_taf : (fillFrame dev i ch objs).1.timeAtFrame.getD (i + 1) 0 =
          ch.timeAtFrame.getD i 0 + get_fluid_rate (dev.animRateAt i) * ch.aniFrameTime := by
        show (ch.timeAtFrame.set (i + 1) _).getD (i + 1) 0 = _
        exact getD_set_self _ _ (by simpa using htaf)
      have hstep_dg : (fillFrame dev i ch objs).1.DomainGravity.getD (i * 4 + 3) 0 =
          ch.timeAtFrame.getD i 0 + get_fluid_rate (dev.animRateAt i) * ch.aniFrameTime := by
        show (set_channel ch.DomainGravity _ (ChannelValue.vec _) i).getD (i * 4 + 3) 0 = _
        exact getD_set_channel_vec_time _ _ _ _ hdg
      have hstep_dv : (fillFrame dev i ch objs).1.DomainViscosity.getD (i * 2 + 1) 0 =
          ch.timeAtFrame.getD i 0 + get_fluid_rate (dev.animRateAt i) * ch.aniFrameTime := by
        show (set_channel ch.DomainViscosity _ (ChannelValue.float _) i).getD (i * 2 + 1) 0 = _
        exact getD_set_channel_float_time _ _ _ _ hdv
      have hstep_dt : (fillFrame dev i ch objs).1.DomainTime.getD (i * 2 + 1) 0 = (i : ℚ) := by
        show (set_channel ch.DomainTime (i : ℚ) (ChannelValue.float _) i).getD (i * 2 + 1) 0 = _
        exact getD_set_channel_float_time _ _ _ _ hdt
      refine ⟨?_, ?_, ?_⟩
      · rw [l2 (by omega), htlow, hstep_dg, hstep_taf]
      · rw [m3 (by omega), htlow, hstep_dv, hstep_taf]
      · rw [m1 (by omega), hstep_dt]
    · have hl1 : j + 1 < (fillFrame dev i ch objs).1.timeAtFrame.length := by
        show j + 1 < (ch.timeAtFrame.set _ _).length
        simpa using htaf
      have hl2 : j * 2 + 1 < (fillFrame dev i ch objs).1.DomainTime.length := by
        show j * 2 + 1 < (set_channel ch.DomainTime _ (ChannelValue.float _) i).length
        rw [length_set_channel]
        exact hdt
      have hl3 : j * 4 + 3 < (fillFrame dev i ch objs).1.DomainGravity.length := by
        show j * 4 + 3 < (set_channel ch.DomainGravity _ (ChannelValue.vec _) i).length
        rw [length_set_channel]
        exact hdg
      have hl4 : j * 2 + 1 < (fillFrame dev i ch objs).1.DomainViscosity.length := by
        show j * 2 + 1 < (set_channel ch.DomainViscosity _ (ChannelValue.float _) i).length
        rw [length_set_channel]
        exact hdv
      exact ih (i + 1) (fillFrame dev i ch objs).1 (fillFrame dev i ch objs).2 j
        (by omega) (by omega) hl1 hl2 hl3 hl4

/-- Claim C2, amended: after fluid_init_all_channels fills the channels for a
legacy bake of length N (with every animated mesh keeping its recorded vertex
count), every channel buffer holds exactly N samples of its stride, and for
every frame index i in [0, N) the time slots stored at sample i of
DomainGravity and DomainViscosity equal timeAtFrame[i+1] — but the time slot
of DomainTime holds the frame index i instead (its value slot carries the
per-frame time step). -/
theorem c2_amended_channel_invariants (dev : DomainEval) (N : ℕ) (aft : ℚ)
    (scene : List FluidObjIn)
    (hvc : ∀ o ∈ scene, fluid_is_animated_mesh o = true → ∀ i < N, o.numVertsAt i = o.numVerts0) :
    (fluid_init_all_channels dev N aft scene).1.timeAtFrame.length = N + 1 ∧
    (fluid_init_all_channels dev N aft scene).1.DomainTime.length = N * (CHANNEL_FLOAT + 1) ∧
    (fluid_init_all_channels dev N aft scene).1.DomainGravity.length = N * (CHANNEL_VEC + 1) ∧
    (fluid_init_all_channels dev N aft scene).1.DomainViscosity.length = N * (CHANNEL_FLOAT + 1) ∧
    (∀ fs ∈ (fluid_init_all_channels dev N aft scene).2,
       objBuffersWF N fs ∧ fs.VertexCache.alive = fs.VertexCache.ptr) ∧
    (∀ i < N,
       (fluid_init_all_channels dev N aft scene).1.DomainGravity.getD (i * 4 + 3) 0 =
         (fluid_init_all_channels dev N aft scene).1.timeAtFrame.getD (i + 1) 0 ∧
       (fluid_init_all_channels dev N aft scene).1.DomainViscosity.getD (i * 2 + 1) 0 =
         (fluid_init_all_channels dev N aft scene).1.timeAtFrame.getD (i + 1) 0 ∧
       (fluid_init_all_channels dev N aft scene).1.DomainTime.getD (i * 2 + 1) 0 = (i : ℚ)) := by
  have htafl : (initialChannels dev N aft).timeAtFrame.length = N + 1 := by
    simp [initialChannels, length_init_time]
  obtain ⟨e1, e2, e3, e4⟩ := fillFramesAux_dom_lengths dev N 0
    (initialChannels dev N aft) (initialFluidObjects N scene)
  simp only [fluid_init_all_channels, fillFrames, Nat.sub_zero]
  refine ⟨e1.trans htafl, e2.trans (by simp [initialChannels]),
    e3.trans (by simp [initialChannels]), e4.trans (by simp [initialChannels]), ?_, ?_⟩
  · have hinit : ∀ fs0 ∈ initialFluidObjects N scene, objInv N fs0 := by
      intro fs0 hm0
      simp only [initialFluidObjects] at hm0
      rcases List.mem_map.mp hm0 with ⟨o, _ho, rfl⟩
      exact allocFluidObject_objInv N o
    intro fs hm
    obtain ⟨hwf, hptr, hnum, hdead, halive⟩ :=
      fillFramesAux_objInv dev N N 0 _ _ (by omega) hinit fs hm
    refine ⟨hwf, ?_⟩
    cases hp : fs.VertexCache.ptr
    · rw [hdead hp]
    · rcases fillFramesAux_objs_origin dev N 0 _ _ fs hm with ⟨fs0, hm0, hobj⟩
      simp only [initialFluidObjects] at hm0
      rcases List.mem_map.mp hm0 with ⟨o, ho, rfl⟩
      have hobj2 : fs.obj = o := hobj.trans (allocFluidObject_obj N o)
      have hHasVC : objHasVC fs.obj = true := by rw [← hptr, hp]
      have hanim2 : fluid_is_animated_mesh o = true := by
        rw [← hobj2]
        simp only [objHasVC, Bool.and_eq_true] at hHasVC
        exact hHasVC.2
      have hnum2 : fs.numVerts = fs.obj.numVerts0 := by rw [hnum, if_pos hHasVC]
      have hall : ∀ j < N, fs.obj.numVertsAt j = fs.numVerts := by
        intro j hj
        rw [hnum2, hobj2]
        exact hvc o (List.mem_filter.mp ho).1 hanim2 j hj
      rw [halive hp hall]
  · intro i hi
    refine fillFramesAux_dom_slots dev N 0 _ _ i (Nat.zero_le i) (by omega) ?_ ?_ ?_ ?_
    · rw [htafl]
      omega
    · simp only [initialChannels, List.length_replicate, CHANNEL_FLOAT]
      omega
    · simp only [initialChannels, List.length_replicate, CHANNEL_VEC]
      omega
    · simp only [initialChannels, List.length_replicate, CHANNEL_FLOAT]
      omega

/-- Claim C2, witness: the amended invariants at a concrete two-frame bake
over a domain and an animated control object with a stable two-vertex mesh. -/
theorem c2_amended_witness :
    (∀ o ∈ c2WitnessScene, fluid_is_animated_mesh o = true →
       ∀ i < 2, o.numVertsAt i = o.numVerts0) ∧
    ((fluid_init_all_channels offsetDomainEval 2 (1/5) c2WitnessScene).1.timeAtFrame.length = 2 + 1 ∧
     (fluid_init_all_channels offsetDomainEval 2 (1/5) c2WitnessScene).1.DomainTime.length = 2 * (CHANNEL_FLOAT + 1) ∧
     (fluid_init_all_channels offsetDomainEval 2 (1/5) c2WitnessScene).1.DomainGravity.length = 2 * (CHANNEL_VEC + 1) ∧
     (fluid_init_all_channels offsetDomainEval 2 (1/5) c2WitnessScene).1.DomainViscosity.length = 2 * (CHANNEL_FLOAT + 1) ∧
     (∀ fs ∈ (fluid_init_all_channels offsetDomainEval 2 (1/5) c2WitnessScene).2,
        objBuffersWF 2 fs ∧ fs.VertexCache.alive = fs.VertexCache.ptr) ∧
     (∀ i < 2,
        (fluid_init_all_channels offsetDomainEval 2 (1/5) c2WitnessScene).1.DomainGravity.getD (i * 4 + 3) 0 =
          (fluid_init_all_channels offsetDomainEval 2 (1/5) c2WitnessScene).1.timeAtFrame.getD (i + 1) 0 ∧
        (fluid_init_all_channels offsetDomainEval 2 (1/5) c2WitnessScene).1.DomainViscosity.getD (i * 2 + 1) 0 =
          (fluid_init_all_channels offsetDomainEval 2 (1/5) c2WitnessScene).1.timeAtFrame.getD (i + 1) 0 ∧
        (fluid_init_all_channels offsetDomainEval 2 (1/5) c2WitnessScene).1.DomainTime.getD (i * 2 + 1) 0 = (i : ℚ))) :=
  ⟨by decide, c2_amended_channel_invariants offsetDomainEval 2 (1/5) c2WitnessScene (by decide)⟩
